import Mathlib

/-!
Shallow embedding of `accounts-tequila-server.js` (Meteor package
`epfl:accounts-tequila`).

The file models:
* the attribute set returned by the Tequila `fetchattributes` RPC;
* the duck-typed return shapes of the pluggable `getUserId` resolver
  (falsy / record with `_id` / cursor exposing `forEach` / bare value);
* `getIdFromResults` and the login handler registered through
  `Accounts.registerLoginHandler` inside `start`;
* `tequilaRedirectHTTP` and the connect middleware stack that `start`
  installs (one middleware per `bypass` pattern, then one per `control`
  pattern), together with a trace of the remote-protocol calls each
  request triggers.

External collaborators (passport-tequila's `Protocol`, the connect
dispatcher) are not part of this repository; they are modelled from the
spec as opaque functions or simple path-prefix routing, and are marked
as such in their doc comments.

JavaScript errors and rejected promises are modelled with `Except`:
`Except.error` is a thrown/rejected value, `Except.ok` a normal return.

A scoping fact of the source drives the login-side results:
`getIdFromResults` is a module-level function, but it reads `options`,
a `let` binding local to `start`. JavaScript's lexical scoping makes
that read throw `ReferenceError: options is not defined` on every call,
before the configured resolver is invoked, so identity resolution
always rejects and the handler's `{userId}` and user-unknown branches
are dead code. The embedding models this faithfully.
-/

set_option autoImplicit false

namespace AccountsTequila

/-- Attribute set returned by the Tequila `fetchattributes` RPC: the
asserted `name` field (used by the default `getUserId`) plus the
remaining asserted fields as key/value pairs. -/
structure TequilaResults where
  name : String
  fields : List (String × String)
deriving DecidableEq, Repr

/-- A `Meteor.Error`: the error code passed to the constructor, plus any
fields later attached to the error object (e.g. by `_.extend`). -/
structure MeteorError where
  error : String
  attached : List (String × String)
deriving DecidableEq, Repr

/-- A thrown JavaScript value: either a `Meteor.Error` or some other
error (transport failures, exceptions from the resolver, ...). -/
inductive JsError where
  | meteor (e : MeteorError)
  | js (msg : String)
deriving DecidableEq, Repr

/-- A Meteor user document as far as this package reads it: the Mongo
`_id` and the `username` field that the default resolver queries. -/
structure UserRecord where
  _id : String
  username : String
deriving DecidableEq, Repr

/-- One element yielded by a cursor-like object's `forEach`, as the code
reads the callback arguments `(error, value)`: either an error or a
value. -/
inductive CursorElem where
  | err (e : JsError)
  | val (v : String)
deriving DecidableEq, Repr

/-- The duck-typed values relevant to the resolver's return shapes:
`undefined`/null, a string, a record exposing `_id`, or a cursor-like
object exposing `forEach` (modelled by the list of elements its
iteration yields). -/
inductive JsVal where
  | undefined
  | str (s : String)
  | record (r : UserRecord)
  | cursor (elems : List CursorElem)
deriving DecidableEq, Repr

/-- JavaScript truthiness for the values above: `undefined` and the
empty string are falsy, objects are truthy. -/
def JsVal.truthy : JsVal → Bool
  | .undefined => false
  | .str s => !s.isEmpty
  | .record _ => true
  | .cursor _ => true

/-- The `ReferenceError` that `getIdFromResults` rejects with on every
call: the function is defined at module level while `options` is a `let`
local to `start`, so its first statement reads the unbound identifier
`options`. -/
def optionsReferenceError : JsError :=
  .js "ReferenceError: options is not defined"

/-- The `loggedInUser.forEach(function (error, value) ...)` loop inside
the body of `getIdFromResults`: the callback throws the first error
element it is given (which aborts the iteration) and merely returns each
value element to `forEach` (which discards it and keeps iterating). The
loop produces no value — and, like the rest of that body, it is
unreachable in the source (see `getIdFromResults`); it is kept here as a
model of the dead code. -/
def runForEach : List CursorElem → Except JsError Unit
  | [] => .ok ()
  | .err e :: _ => .error e
  | .val _ :: rest => runForEach rest

/-- `getIdFromResults(results)` from the source. Its body intends to
await the configured resolver on the attribute set and post-process the
duck-typed result (falsy → `undefined`, cursor → `forEach`, truthy
`_id` → that id, otherwise the bare value), but the function sits at
module level while `options` is local to `start`: evaluating
`options.getUserId` throws a `ReferenceError` before the resolver runs,
the wrapping promise rejects with it, and none of the body's branches is
reachable. The resolver parameter is kept (unused, as in the program) so
statements can quantify over the configured resolver. -/
def getIdFromResults (_getUserId : TequilaResults → Except JsError JsVal)
    (_results : TequilaResults) : Except JsError JsVal :=
  .error optionsReferenceError

/-- The user-unknown login error built at the `if (! userId)` branch of
the login handler: `new Meteor.Error("Tequila:user-unknown")`, with
nothing attached to it. -/
def unknownUserError : JsError :=
  .meteor { error := "Tequila:user-unknown", attached := [] }

/-- The helper `TequilaUnknownUserError(tequilaResults)` defined at the
bottom of the source file: a `Meteor.Error("TEQUILA_USER_UNKNOWN")`
extended with the attribute-set fields. The login handler never calls
it. -/
def TequilaUnknownUserError (tequilaResults : TequilaResults) : JsError :=
  .meteor { error := "TEQUILA_USER_UNKNOWN", attached := tequilaResults.fields }

/-- Arguments of a login call, as far as this handler reads them: the
optional `tequilaKey` ticket. -/
structure LoginOptions where
  tequilaKey : Option String
deriving DecidableEq, Repr

/-- Result of a login handler: `undefined` (method declined),
`{userId}`, or `{error}`. -/
inductive LoginResult where
  | declined
  | success (userId : JsVal)
  | failure (error : JsError)
deriving DecidableEq, Repr

/-- A call made to the remote Tequila protocol object. -/
inductive RpcCall where
  | createrequest (url : String)
  | fetchattributes (ticket : String)
deriving DecidableEq, Repr

/-- The login handler that `start` registers through
`Accounts.registerLoginHandler`, paired with the trace of remote calls
it performs. Decline when the ticket argument is falsy; otherwise call
`fetchattributes` once with the ticket, returning `{error}` on a thrown
transport failure; on success hand the attribute set to
`getIdFromResults` inside the second try/catch, which returns `{error}`
for every throw/rejection of the resolution phase, the user-unknown
`{error}` for a falsy user id, and `{userId}` otherwise. The last two
branches mirror source lines 117-123 but are dead in the composed
program, since `getIdFromResults` rejects on every call; the `{userId}`
wiring moreover rides over the source's `const results`, which under
native const semantics is block-scoped to the first try block. -/
def loginHandler (fetchattributes : String → Except JsError TequilaResults)
    (getUserId : TequilaResults → Except JsError JsVal)
    (options : LoginOptions) : LoginResult × List RpcCall :=
  match options.tequilaKey with
  | none => (.declined, [])
  | some key =>
    if key.isEmpty then (.declined, [])
    else
      let result :=
        match fetchattributes key with
        | .error e => .failure e
        | .ok results =>
          match getIdFromResults getUserId results with
          | .error e => .failure e
          | .ok userId =>
            if !userId.truthy then .failure unknownUserError
            else .success userId
      (result, [.fetchattributes key])

/-- A sequence of login calls served one after the other by the same
registered handler (the handler holds no mutable state, so each call is
served independently). -/
def serveLogins (fetchattributes : String → Except JsError TequilaResults)
    (getUserId : TequilaResults → Except JsError JsVal)
    (calls : List LoginOptions) : List LoginResult :=
  calls.map (fun o => (loginHandler fetchattributes getUserId o).1)

/-- The default `getUserId` installed by `start` when the caller's
options omit one: `Meteor.users.findOne({username: tequilaResponse.name})`,
over a user store modelled as the list of user documents in insertion
order. -/
def defaultGetUserId (users : List UserRecord) (tequilaResponse : TequilaResults) :
    Except JsError JsVal :=
  match users.find? (fun u => u.username == tequilaResponse.name) with
  | some d => .ok (.record d)
  | none => .ok .undefined

/-- The `_.extend` of default options with the caller's options, for the
`getUserId` entry: the caller's resolver when present, otherwise the
default one. -/
def effectiveGetUserId (users : List UserRecord)
    (custom : Option (TequilaResults → Except JsError JsVal)) :
    TequilaResults → Except JsError JsVal :=
  match custom with
  | some f => f
  | none => defaultGetUserId users

/-- An inbound HTTP request as the middleware reads it: the pathname the
connect dispatcher routes on, `req.originalUrl`, the parsed `key` query
parameter, and the `req.tequila` marker (`some true` once a bypass
middleware has set `{whitelisted: true}`, `none` on a fresh request). -/
structure Request where
  path : String
  originalUrl : String
  queryKey : Option String
  tequila : Option Bool
deriving DecidableEq, Repr

/-- The `req.tequila && req.tequila.whitelisted` test. -/
def Request.whitelisted (req : Request) : Bool :=
  match req.tequila with
  | some b => b
  | none => false

/-- Truthiness of `req.query.key` (absent or empty is falsy). -/
def keyTruthy : Option String → Bool
  | none => false
  | some k => !k.isEmpty

/-- The `results` that a successful `createrequest` passes to its
callback: the return-target URL registered with the Tequila server and
the opaque request key the server issued. -/
structure CrResults where
  urlaccess : String
  requestKey : String
deriving DecidableEq, Repr

/-- Modelled from the spec: passport-tequila's `Protocol.createrequest`
(outside this repository) registers the request's original URL with the
Tequila server as the return target and yields either an error or the
results holding that URL and the server-issued request key. The Tequila
server itself is the opaque `server` oracle. -/
def createrequest (server : String → Except JsError String) (req : Request) :
    Except JsError CrResults :=
  match server req.originalUrl with
  | .error e => .error e
  | .ok k => .ok { urlaccess := req.originalUrl, requestKey := k }

/-- What one control middleware invocation does with the request:
`next()` (fall through to the rest of the stack), write a redirect
response built from `createrequest` results (`protocol.requestauth`),
or `next(err)`. -/
inductive MwStep where
  | next
  | redirect (results : CrResults)
  | nextErr (e : JsError)
deriving DecidableEq, Repr

/-- `tequilaRedirectHTTP(req, res, next, protocol)` from the source,
paired with the remote calls it performs: when the request carries a
truthy `key` query parameter it calls `next()` without touching the
Tequila server; otherwise it calls `createrequest` and, on error,
forwards the error through `next(err)`, on success redirects the client
to Tequila (`requestauth`) with the results. -/
def tequilaRedirectHTTP (server : String → Except JsError String) (req : Request) :
    MwStep × List RpcCall :=
  if keyTruthy req.queryKey then (.next, [])
  else
    match createrequest server req with
    | .error e => (.nextErr e, [.createrequest req.originalUrl])
    | .ok results => (.redirect results, [.createrequest req.originalUrl])

/-- Modelled from the spec: the connect dispatcher's route test for
`connect.use(url, middleware)`, as "simple path-prefix matches,
evaluated against the request path only". -/
def routeMatches (pattern path : String) : Bool :=
  pattern.data.isPrefixOf path.data

/-- The bypass half of the stack `start` installs: for each `bypass`
pattern in order, a middleware that (when the route matches) sets
`req.tequila = {whitelisted: true}` and calls `next()`. -/
def runBypass (bypass : List String) (req : Request) : Request :=
  match bypass with
  | [] => req
  | p :: rest =>
    if routeMatches p req.path then runBypass rest { req with tequila := some true }
    else runBypass rest req

/-- How a request leaves the middleware stack: fell through the whole
stack via `next()` (downstream middleware sees `req`), a redirect
response was written, or an error was forwarded to the pipeline's error
channel. -/
inductive HttpOutcome where
  | passed (req : Request)
  | redirected (req : Request) (results : CrResults)
  | errored (req : Request) (e : JsError)
deriving DecidableEq, Repr

/-- The control half of the stack: for each `control` pattern in order,
a middleware that (when the route matches) calls `next()` if the request
is whitelisted and `tequilaRedirectHTTP` otherwise. A redirect or
`next(err)` ends the stack; `next()` continues with the remaining
middlewares. The remote calls are accumulated in the trace. -/
def runControl (server : String → Except JsError String)
    (control : List String) (req : Request) : HttpOutcome × List RpcCall :=
  match control with
  | [] => (.passed req, [])
  | p :: rest =>
    if routeMatches p req.path then
      if req.whitelisted then runControl server rest req
      else
        match tequilaRedirectHTTP server req with
        | (.next, tr) =>
          let (o, tr2) := runControl server rest req
          (o, tr ++ tr2)
        | (.redirect results, tr) => (.redirected req results, tr)
        | (.nextErr e, tr) => (.errored req e, tr)
    else runControl server rest req

/-- The whole connect stack `start` hands to
`WebApp.rawConnectHandlers`: the bypass middlewares followed by the
control middlewares (query parsing is reflected in `Request.queryKey`
being already populated). -/
def rawConnectHandler (server : String → Except JsError String)
    (bypass control : List String) (req : Request) : HttpOutcome × List RpcCall :=
  runControl server control (runBypass bypass req)

/-- Request classification outcomes of the spec's classifier contract. -/
inductive Outcome where
  | whitelisted
  | controlled
  | unclassified
deriving DecidableEq, Repr

/-- The spec's classifier contract
`classify(path, bypassPatterns, controlPatterns)`: first bypass match
wins, then first control match, otherwise unclassified. Stated from the
spec, to be compared with what the middleware stack does. -/
def classify (path : String) (bypass control : List String) : Outcome :=
  if bypass.any (fun p => routeMatches p path) then .whitelisted
  else if control.any (fun p => routeMatches p path) then .controlled
  else .unclassified

/-- The default `bypass` patterns `start` installs when the caller's
options omit them. -/
def defaultBypass : List String :=
  ["/merged-stylesheets.css", "/packages/", "/lib/", "/node_modules/",
   "/tap-i18n/", "/error-stack-parser.min.js.map", "/favicon.ico"]

/-- The default `control` patterns (`"/"`: everything). -/
def defaultControl : List String := ["/"]

/-- Whether a login result is an `{error}` whose `Meteor.Error` carries
every field of the given attribute set among its attached fields (the
spec's "payload includes the raw attribute set"). -/
def errorCarriesAttributes (res : LoginResult) (R : TequilaResults) : Bool :=
  match res with
  | .failure (.meteor e) => R.fields.all (fun kv => e.attached.contains kv)
  | _ => false

/-- The request a middleware-stack outcome hands on (to downstream
middleware, to the redirect writer, or to the error channel). -/
def HttpOutcome.request : HttpOutcome → Request
  | .passed r => r
  | .redirected r _ => r
  | .errored r _ => r

/-! ## Helper lemmas about the middleware stack -/

/-- Closed form of the bypass half: it marks the request whitelisted
exactly when some bypass pattern matches the path, and changes nothing
else. -/
theorem runBypass_spec (bypass : List String) (req : Request) :
    runBypass bypass req =
      if bypass.any (fun p => routeMatches p req.path) then { req with tequila := some true }
      else req := by
  induction bypass generalizing req with
  | nil => simp [runBypass]
  | cons p rest ih =>
    simp only [runBypass, List.any_cons]
    by_cases h : routeMatches p req.path
    · simp [h, ih]
    · simp [h, ih]

/-- A whitelisted request falls through every control middleware with no
remote call. -/
theorem runControl_whitelisted (server : String → Except JsError String)
    (control : List String) (req : Request) (h : req.whitelisted = true) :
    runControl server control req = (.passed req, []) := by
  induction control with
  | nil => simp [runControl]
  | cons p rest ih =>
    simp only [runControl]
    by_cases hm : routeMatches p req.path
    · simp [hm, h, ih]
    · simp [hm, ih]

/-- A request carrying a truthy `key` query parameter falls through
every control middleware with no remote call. -/
theorem runControl_key (server : String → Except JsError String)
    (control : List String) (req : Request) (h : keyTruthy req.queryKey = true) :
    runControl server control req = (.passed req, []) := by
  induction control with
  | nil => simp [runControl]
  | cons p rest ih =>
    simp only [runControl]
    by_cases hm : routeMatches p req.path
    · by_cases hw : req.whitelisted
      · simp [hm, hw, ih]
      · simp [hm, hw, tequilaRedirectHTTP, h, ih]
    · simp [hm, ih]

/-- The control middlewares never call `fetchattributes`. -/
theorem runControl_no_fetchattributes (server : String → Except JsError String)
    (control : List String) (req : Request) (t : String) :
    RpcCall.fetchattributes t ∉ (runControl server control req).2 := by
  induction control with
  | nil => simp [runControl]
  | cons p rest ih =>
    simp only [runControl]
    by_cases hm : routeMatches p req.path
    · by_cases hw : req.whitelisted
      · simp [hm, hw, ih]
      · by_cases hk : keyTruthy req.queryKey
        · simp [hm, hw, tequilaRedirectHTTP, hk, ih]
        · cases hsv : server req.originalUrl with
          | error e => simp [hm, hw, tequilaRedirectHTTP, hk, createrequest, hsv]
          | ok k => simp [hm, hw, tequilaRedirectHTTP, hk, createrequest, hsv]
    · simp [hm, ih]

/-- A non-whitelisted, keyless request that matches some control pattern
triggers exactly one `createrequest`, redirecting on success and
forwarding the error on failure. -/
theorem runControl_controlled (server : String → Except JsError String)
    (control : List String) (req : Request)
    (hc : control.any (fun p => routeMatches p req.path) = true)
    (hw : req.whitelisted = false) (hk : keyTruthy req.queryKey = false) :
    runControl server control req =
      match server req.originalUrl with
      | .error e => (.errored req e, [.createrequest req.originalUrl])
      | .ok k => (.redirected req { urlaccess := req.originalUrl, requestKey := k },
                  [.createrequest req.originalUrl]) := by
  induction control with
  | nil => simp at hc
  | cons p rest ih =>
    simp only [List.any_cons, Bool.or_eq_true] at hc
    simp only [runControl]
    by_cases hm : routeMatches p req.path
    · cases hsv : server req.originalUrl with
      | error e => simp [hm, hw, tequilaRedirectHTTP, hk, createrequest, hsv]
      | ok k => simp [hm, hw, tequilaRedirectHTTP, hk, createrequest, hsv]
    · cases hc with
      | inl h => exact absurd h hm
      | inr h => simpa [hm] using ih h

/-- The control middlewares hand the very request they received to
whatever comes next: none of them modifies the request object. -/
theorem runControl_request (server : String → Except JsError String)
    (control : List String) (req : Request) :
    ((runControl server control req).1).request = req := by
  induction control with
  | nil => simp [runControl, HttpOutcome.request]
  | cons p rest ih =>
    simp only [runControl]
    by_cases hm : routeMatches p req.path
    · by_cases hw : req.whitelisted
      · simp [hm, hw, ih]
      · by_cases hk : keyTruthy req.queryKey
        · simp [hm, hw, tequilaRedirectHTTP, hk, ih]
        · cases hsv : server req.originalUrl with
          | error e =>
            simp [hm, hw, tequilaRedirectHTTP, hk, createrequest, hsv, HttpOutcome.request]
          | ok k =>
            simp [hm, hw, tequilaRedirectHTTP, hk, createrequest, hsv, HttpOutcome.request]
    · simp [hm, ih]

/-! ## Claim theorems -/

/-- C1: at the claim's input — ticket present, `fetchattributes`
succeeds with `{name: "alice"}`, the configured resolver returns the
record `{_id: "u42"}` — the handler returns
`{error: ReferenceError}` after exactly one `fetchattributes`, never
`{userId: "u42"}`: `getIdFromResults` reads the unbound `options` and
rejects before the resolver runs, so the `{userId}` branch is
unreachable. -/
theorem login_ticket_record_returns_reference_error :
    loginHandler (fun _ => .ok { name := "alice", fields := [] })
      (fun _ => .ok (.record { _id := "u42", username := "alice" }))
      { tequilaKey := some "abc123" } =
      (.failure optionsReferenceError, [.fetchattributes "abc123"]) := rfl

/-- C2: the HTTP pipeline never redeems a ticket. No request, whatever
its classification, ever puts a `fetchattributes` call in the pipeline's
trace; a Controlled request carrying a truthy `key` parameter falls
through the whole stack via `next()` with an empty remote-call trace;
and the explicit login call is the sole redemption path, performing
exactly one `fetchattributes` per call presenting a ticket (and none
when no ticket is presented). -/
theorem http_never_redeems_ticket
    (server : String → Except JsError String) (bypass control : List String)
    (req : Request) (fetch : String → Except JsError TequilaResults)
    (getUserId : TequilaResults → Except JsError JsVal) (key : String) :
    (∀ t, RpcCall.fetchattributes t ∉ (rawConnectHandler server bypass control req).2)
    ∧ (classify req.path bypass control = .controlled → keyTruthy req.queryKey = true →
        rawConnectHandler server bypass control req = (.passed (runBypass bypass req), []))
    ∧ (key.isEmpty = false →
        (loginHandler fetch getUserId { tequilaKey := some key }).2 = [.fetchattributes key])
    ∧ (loginHandler fetch getUserId { tequilaKey := none }).2 = [] := by
  refine ⟨?_, ?_, ?_, ?_⟩
  · intro t
    exact runControl_no_fetchattributes server control (runBypass bypass req) t
  · intro _ hk
    have hq : (runBypass bypass req).queryKey = req.queryKey := by
      rw [runBypass_spec]; split <;> rfl
    exact runControl_key server control _ (by rw [hq]; exact hk)
  · intro hk
    simp [loginHandler, hk]
  · rfl

/-- C2 witness: on the spec's scenario (bypass `"/assets/"`, control
`"/"`, request `/dashboard?key=abc123`), the pipeline makes no
`fetchattributes` call and passes the request through untouched, while
the login call with ticket "abc123" traces exactly one
`fetchattributes`. -/
theorem http_never_redeems_ticket_witness :
    RpcCall.fetchattributes "abc123" ∉
      (rawConnectHandler (fun _ => .ok "rk1") ["/assets/"] ["/"]
        { path := "/dashboard", originalUrl := "/dashboard?key=abc123",
          queryKey := some "abc123", tequila := none }).2
    ∧ rawConnectHandler (fun _ => .ok "rk1") ["/assets/"] ["/"]
        { path := "/dashboard", originalUrl := "/dashboard?key=abc123",
          queryKey := some "abc123", tequila := none } =
        (.passed { path := "/dashboard", originalUrl := "/dashboard?key=abc123",
                   queryKey := some "abc123", tequila := none }, [])
    ∧ (loginHandler (fun _ => .ok { name := "alice", fields := [] })
        (fun _ => .ok .undefined) { tequilaKey := some "abc123" }).2 =
        [.fetchattributes "abc123"] := by
  have h := http_never_redeems_ticket (fun _ => .ok "rk1") ["/assets/"] ["/"]
    { path := "/dashboard", originalUrl := "/dashboard?key=abc123",
      queryKey := some "abc123", tequila := none }
    (fun _ => .ok { name := "alice", fields := [] }) (fun _ => .ok .undefined) "abc123"
  refine ⟨h.1 "abc123", ?_, h.2.2.1 (by decide)⟩
  have h2 := h.2.1 (by decide) (by decide)
  have hcond : routeMatches "/assets/" "/dashboard" = false := by decide
  simpa [runBypass, hcond] using h2

/-- C7: a login call whose `fetchattributes` fails with `e` yields
`{error: e}` as an ordinary login result, and the handler keeps serving
every subsequent login call as usual. -/
theorem login_fetch_failure_returns_error
    (fetch : String → Except JsError TequilaResults)
    (getUserId : TequilaResults → Except JsError JsVal)
    (key : String) (e : JsError) (rest : List LoginOptions)
    (hk : key.isEmpty = false) (hf : fetch key = .error e) :
    serveLogins fetch getUserId ({ tequilaKey := some key } :: rest) =
      .failure e :: serveLogins fetch getUserId rest := by
  simp [serveLogins, loginHandler, hk, hf]

/-- C7 witness: a concrete transport failure surfaces as `{error}` and
the following ticketless call is still served (declined as usual). -/
theorem login_fetch_failure_returns_error_witness :
    serveLogins (fun _ => .error (.js "timeout")) (fun _ => .ok .undefined)
      [{ tequilaKey := some "t1" }, { tequilaKey := none }] =
      [.failure (.js "timeout"), .declined] := by
  have h := login_fetch_failure_returns_error (fun _ => .error (.js "timeout"))
    (fun _ => .ok .undefined) "t1" (.js "timeout") [{ tequilaKey := none }]
    (by decide) rfl
  simpa [serveLogins, loginHandler] using h

/-- C8: once the attribute fetch has succeeded, any exception raised by
identity resolution (a rejection of `getIdFromResults`, which covers a
throwing/rejecting `getUserId` as well as an error yielded during cursor
iteration) is caught and the handler returns `{error: e}`. -/
theorem login_resolution_exception_caught
    (fetch : String → Except JsError TequilaResults)
    (getUserId : TequilaResults → Except JsError JsVal)
    (key : String) (R : TequilaResults)
    (hk : key.isEmpty = false) (hf : fetch key = .ok R) :
    ∀ e, getIdFromResults getUserId R = .error e →
      (loginHandler fetch getUserId { tequilaKey := some key }).1 = .failure e := by
  intro e hg
  simp [loginHandler, hk, hf, hg]

/-- C8 witness: the resolution phase's actual rejection — the
`ReferenceError` raised at the unbound `options` — is caught and
surfaces as the login result's `{error}`. -/
theorem login_resolution_exception_caught_witness :
    (loginHandler (fun _ => .ok { name := "bob", fields := [] })
      (fun _ => .error (.js "boom")) { tequilaKey := some "k8" }).1 =
      .failure optionsReferenceError :=
  login_resolution_exception_caught _ _ "k8" { name := "bob", fields := [] }
    (by decide) rfl optionsReferenceError rfl

/-- C5: a path matching some bypass pattern is classified Whitelisted —
even when control patterns also match, because the bypass middlewares
run strictly before the control middlewares — and the request falls
through the whole stack marked whitelisted, with no redirect and no
remote call. -/
theorem bypass_wins_over_control
    (server : String → Except JsError String) (bypass control : List String)
    (req : Request) (p : String)
    (hp : p ∈ bypass) (hm : routeMatches p req.path = true) :
    classify req.path bypass control = .whitelisted
    ∧ rawConnectHandler server bypass control req =
        (.passed { req with tequila := some true }, []) := by
  have hany : bypass.any (fun q => routeMatches q req.path) = true :=
    List.any_eq_true.mpr ⟨p, hp, hm⟩
  constructor
  · simp [classify, hany]
  · unfold rawConnectHandler
    rw [runBypass_spec, if_pos hany]
    exact runControl_whitelisted server control _ rfl

/-- C5 witness: with bypass `"/assets/"` and control `"/"` the path
`/assets/app.css` matches both, is classified Whitelisted, and passes
through marked whitelisted with no remote call. -/
theorem bypass_wins_over_control_witness :
    classify "/assets/app.css" ["/assets/"] ["/"] = .whitelisted
    ∧ rawConnectHandler (fun _ => .ok "rk1") ["/assets/"] ["/"]
        { path := "/assets/app.css", originalUrl := "/assets/app.css",
          queryKey := none, tequila := none } =
        (.passed { path := "/assets/app.css", originalUrl := "/assets/app.css",
                   queryKey := none, tequila := some true }, []) :=
  bypass_wins_over_control (fun _ => .ok "rk1") ["/assets/"] ["/"]
    { path := "/assets/app.css", originalUrl := "/assets/app.css",
      queryKey := none, tequila := none }
    "/assets/" (by simp) (by decide)

/-- C6: a fresh request classified Controlled with no `key` parameter
triggers exactly one `createrequest`; when the Tequila server answers,
the middleware writes a redirect whose results carry the request's
original URL as the return target; when `createrequest` fails, the error
goes to the pipeline's error channel via `next(err)` and no redirect is
written. In both cases no `fetchattributes` call appears in the trace. -/
theorem controlled_keyless_redirects
    (server : String → Except JsError String) (bypass control : List String)
    (req : Request) (ht : req.tequila = none)
    (hc : classify req.path bypass control = .controlled)
    (hk : keyTruthy req.queryKey = false) :
    (∀ k, server req.originalUrl = .ok k →
      rawConnectHandler server bypass control req =
        (.redirected req { urlaccess := req.originalUrl, requestKey := k },
         [.createrequest req.originalUrl]))
    ∧ (∀ e, server req.originalUrl = .error e →
      rawConnectHandler server bypass control req =
        (.errored req e, [.createrequest req.originalUrl])) := by
  have hb : bypass.any (fun q => routeMatches q req.path) = false := by
    cases hba : bypass.any (fun q => routeMatches q req.path) with
    | false => rfl
    | true => simp [classify, hba] at hc
  have h2 : control.any (fun q => routeMatches q req.path) = true := by
    cases hca : control.any (fun q => routeMatches q req.path) with
    | true => rfl
    | false => simp [classify, hb, hca] at hc
  have hreq : runBypass bypass req = req := by
    rw [runBypass_spec, hb]; rfl
  have hw : req.whitelisted = false := by
    simp [Request.whitelisted, ht]
  have hrc := runControl_controlled server control req h2 hw hk
  constructor
  · intro k hk2
    unfold rawConnectHandler
    rw [hreq, hrc, hk2]
  · intro e he
    unfold rawConnectHandler
    rw [hreq, hrc, he]

/-- C6 witness: a fresh keyless request for `/dashboard` under the
scenario patterns is redirected with return target `/dashboard` when the
server answers, and its error goes to the error channel when the server
fails; each run traces exactly one `createrequest`. -/
theorem controlled_keyless_redirects_witness :
    rawConnectHandler (fun _ => .ok "rk1") ["/assets/"] ["/"]
      { path := "/dashboard", originalUrl := "/dashboard",
        queryKey := none, tequila := none } =
      (.redirected { path := "/dashboard", originalUrl := "/dashboard",
                     queryKey := none, tequila := none }
        { urlaccess := "/dashboard", requestKey := "rk1" },
       [.createrequest "/dashboard"])
    ∧ rawConnectHandler (fun _ => .error (.js "tequila down")) ["/assets/"] ["/"]
      { path := "/dashboard", originalUrl := "/dashboard",
        queryKey := none, tequila := none } =
      (.errored { path := "/dashboard", originalUrl := "/dashboard",
                  queryKey := none, tequila := none } (.js "tequila down"),
       [.createrequest "/dashboard"]) :=
  ⟨(controlled_keyless_redirects (fun _ => .ok "rk1") ["/assets/"] ["/"]
      { path := "/dashboard", originalUrl := "/dashboard",
        queryKey := none, tequila := none } rfl (by decide) rfl).1 "rk1" rfl,
   (controlled_keyless_redirects (fun _ => .error (.js "tequila down")) ["/assets/"] ["/"]
      { path := "/dashboard", originalUrl := "/dashboard",
        queryKey := none, tequila := none } rfl (by decide) rfl).2
     (.js "tequila down") rfl⟩

/-- C3: at the claim's input — a non-empty attribute set and a resolver
yielding nothing — the login fails with the `ReferenceError` from the
unbound `options`, not with `Meteor.Error("Tequila:user-unknown")`:
source lines 118-121 are unreachable, so no distinguishable user-unknown
kind is produced and no attribute payload is attached (nothing attaches
it even in the unreachable branch; the `TequilaUnknownUserError` helper
that would is dead code). -/
theorem unknown_user_branch_unreachable :
    (loginHandler (fun _ => .ok { name := "alice", fields := [("name", "alice")] })
      (fun _ => .ok .undefined) { tequilaKey := some "k3" }).1 =
      .failure optionsReferenceError
    ∧ (loginHandler (fun _ => .ok { name := "alice", fields := [("name", "alice")] })
        (fun _ => .ok .undefined) { tequilaKey := some "k3" }).1 ≠
        .failure unknownUserError
    ∧ errorCarriesAttributes
        (loginHandler (fun _ => .ok { name := "alice", fields := [("name", "alice")] })
          (fun _ => .ok .undefined) { tequilaKey := some "k3" }).1
        { name := "alice", fields := [("name", "alice")] } = false := by
  exact ⟨rfl, by decide, rfl⟩

/-- C4: at the failing input — a resolver returning a cursor whose
iteration yields the single value "u1" — the code rejects with the
`ReferenceError` at the unbound `options` before the resolver is invoked
or any cursor element is read, so the login returns `{error}` instead of
succeeding with userId "u1". -/
theorem cursor_resolution_unreachable :
    (loginHandler (fun _ => .ok { name := "bob", fields := [] })
      (fun _ => .ok (.cursor [.val "u1"])) { tequilaKey := some "k4" }).1 =
      .failure optionsReferenceError
    ∧ getIdFromResults (fun _ => .ok (.cursor [.val "u1"]))
        { name := "bob", fields := [] } = .error optionsReferenceError := by
  exact ⟨rfl, rfl⟩

/-- C9 counterexample: a Controlled request (carrying a key) and an
Unclassified request both fall through to downstream middleware with
`req.tequila` unset, so the classification outcome is not attached to
the request context and downstream cannot read it. -/
theorem classification_not_attached :
    classify "/app/x" ["/assets/"] ["/app/"] = .controlled
    ∧ classify "/other" ["/assets/"] ["/app/"] = .unclassified
    ∧ (rawConnectHandler (fun _ => .ok "rk1") ["/assets/"] ["/app/"]
        { path := "/app/x", originalUrl := "/app/x?key=t",
          queryKey := some "t", tequila := none }).1 =
        .passed { path := "/app/x", originalUrl := "/app/x?key=t",
                  queryKey := some "t", tequila := none }
    ∧ (rawConnectHandler (fun _ => .ok "rk1") ["/assets/"] ["/app/"]
        { path := "/other", originalUrl := "/other",
          queryKey := none, tequila := none }).1 =
        .passed { path := "/other", originalUrl := "/other",
                  queryKey := none, tequila := none } := by
  exact ⟨rfl, rfl, rfl, rfl⟩

/-- C9 (amended): only the Whitelisted outcome is attached to the
request context: when some bypass pattern matches, the request carries
`req.tequila = {whitelisted: true}` wherever it goes next; when none
matches, the request goes on with no marker at all, so Controlled and
Unclassified are indistinguishable from the request context. -/
theorem only_whitelisted_marker_attached
    (server : String → Except JsError String) (bypass control : List String)
    (req : Request) (ht : req.tequila = none) :
    (bypass.any (fun p => routeMatches p req.path) = true →
      ((rawConnectHandler server bypass control req).1).request.tequila = some true)
    ∧ (bypass.any (fun p => routeMatches p req.path) = false →
      ((rawConnectHandler server bypass control req).1).request.tequila = none) := by
  constructor
  · intro hb
    unfold rawConnectHandler
    rw [runBypass_spec, if_pos hb, runControl_request]
  · intro hb
    unfold rawConnectHandler
    rw [runBypass_spec, hb]
    simp only [Bool.false_eq_true, if_false]
    rw [runControl_request]
    exact ht

/-- C9 (amended) witness: a bypass-matching request reaches downstream
marked whitelisted; a control-matching one reaches its outcome with no
marker. -/
theorem only_whitelisted_marker_attached_witness :
    ((rawConnectHandler (fun _ => .ok "rk1") ["/assets/"] ["/app/"]
      { path := "/assets/app.css", originalUrl := "/assets/app.css",
        queryKey := none, tequila := none }).1).request.tequila = some true
    ∧ ((rawConnectHandler (fun _ => .ok "rk1") ["/assets/"] ["/app/"]
      { path := "/app/x", originalUrl := "/app/x",
        queryKey := none, tequila := none }).1).request.tequila = none :=
  ⟨(only_whitelisted_marker_attached (fun _ => .ok "rk1") ["/assets/"] ["/app/"]
      { path := "/assets/app.css", originalUrl := "/assets/app.css",
        queryKey := none, tequila := none } rfl).1 (by decide),
   (only_whitelisted_marker_attached (fun _ => .ok "rk1") ["/assets/"] ["/app/"]
      { path := "/app/x", originalUrl := "/app/x",
        queryKey := none, tequila := none } rfl).2 (by decide)⟩

/-- C10: when the caller's options omit `getUserId`, `_.extend` does
install the default `findOne({username: tequilaResponse.name})` — but it
is never executed: at the claim's input (store holding alice/u1, Tequila
response asserting name "alice") the login returns the `ReferenceError`
`{error}` because `getIdFromResults` rejects at the unbound `options`
before calling the resolver, so neither `{userId: "u1"}` nor the
user-unknown outcome is reachable. -/
theorem default_resolver_never_invoked :
    effectiveGetUserId [{ _id := "u1", username := "alice" }] none =
      defaultGetUserId [{ _id := "u1", username := "alice" }]
    ∧ defaultGetUserId [{ _id := "u1", username := "alice" }]
        { name := "alice", fields := [] } =
        .ok (.record { _id := "u1", username := "alice" })
    ∧ (loginHandler (fun _ => .ok { name := "alice", fields := [] })
        (defaultGetUserId [{ _id := "u1", username := "alice" }])
        { tequilaKey := some "kA" }).1 = .failure optionsReferenceError
    ∧ (loginHandler (fun _ => .ok { name := "mallory", fields := [] })
        (defaultGetUserId [{ _id := "u1", username := "alice" }])
        { tequilaKey := some "kB" }).1 = .failure optionsReferenceError := by
  exact ⟨rfl, rfl, rfl, rfl⟩

end AccountsTequila
